import Mathlib

/-!
Verification development for the aio language core: the QQL schema/query
language, its semantic validator, and the configuration language.

Identifiers are embedded as plain strings: the source defines `Ident`
equality and hashing on the text value only (spec section 3), so the AST
and all registries are faithfully represented up to that value-only
identity.  Rust integer types are embedded as `Nat` with range checks made
explicit where the source performs them.
-/

deriving instance DecidableEq for Except

namespace Aio

/-! ## Validation data model (src/db/types.rs, src/db/model.rs) -/

/-- Storage-kind tag, from `db/types.rs` `DataType`. -/
inductive DataType where
  | UUID
  | String
  | DateTime
deriving DecidableEq

/-- The type registry: name to storage capability.  `db/types.rs` exposes a
capability whose only observable is `data_type`, so the capability is
embedded as its `DataType`. -/
abbrev TypeStore := List (String × DataType)

/-- `TypeStore::default`: UUID, String, DateTime and Encrypted (an alias
for the String storage kind). -/
def defaultTypeStore : TypeStore :=
  [("UUID", DataType.UUID), ("String", DataType.String),
   ("DateTime", DataType.DateTime), ("Encrypted", DataType.String)]

/-- `TypeStore::get`. -/
def TypeStore.get (ts : TypeStore) (name : String) : Option DataType :=
  List.lookup name ts

/-- Validated model field, from `db/model.rs` `ModelField`. -/
structure VModelField where
  name : String
  repr : DataType
  optional : Bool
  arg : Option Nat
deriving DecidableEq

/-- Validated model, from `db/model.rs` `Model`. -/
structure VModel where
  name : String
  fields : List VModelField
deriving DecidableEq

/-- `Model::has_field`. -/
def VModel.has_field (m : VModel) (field : String) : Bool :=
  m.fields.any (fun f => f.name == field)

/-- The shared model registry (`db/context.rs`: `models:
RefCell<HashMap<Ident, Model>>`), embedded as an association list with
value-keyed lookup. -/
abbrev Registry := List (String × VModel)

/-- `HashMap::insert`: overwrites any prior entry under the same key. -/
def regInsert (k : String) (v : VModel) (r : Registry) : Registry :=
  (k, v) :: r.filter (fun p => p.1 != k)

/-- The parts of `db::Context` the validator reads and writes. -/
structure DbContext where
  type_store : TypeStore
  models : Registry
deriving DecidableEq

/-! ## Parsed QQL AST (src/pest/db.rs modules model/query/qql) -/

/-- Parsed field type, from `pest/db.rs` `FieldType`. -/
structure PFieldType where
  name : String
  arg : Option Nat
  optional : Bool
deriving DecidableEq

/-- Parsed model field, from `pest/db.rs` `ModelField`. -/
structure PModelField where
  name : String
  type_ : PFieldType
deriving DecidableEq

/-- Parsed model, from `pest/db.rs` `Model`. -/
structure PModel where
  name : String
  fields : List PModelField
deriving DecidableEq

/-- Binary operators of the QQL expression grammar. -/
inductive BinaryOp where
  | Mul | Div | Rem | Add | Sub
  | Lt | Le | Gt | Ge | Eq | Ne
  | And | Or
deriving DecidableEq

/-- Unary operators of the QQL expression grammar. -/
inductive UnaryOp where
  | Not
  | Negative
deriving DecidableEq

/-- QQL expressions, from `pest/db.rs` `qql::Expr`. -/
inductive Expr where
  | Binary : Expr → BinaryOp → Expr → Expr
  | Unary : UnaryOp → Expr → Expr
  | Number : Nat → Expr
  | Interp : String → Expr
  | Field : Option String → String → Expr
deriving DecidableEq

/-- Statement quantifier, from `pest/db.rs` `qql::Quantifier`. -/
inductive Quantifier where
  | One
  | All
  | Number : Nat → Quantifier
  | Expr : Aio.Expr → Quantifier
deriving DecidableEq

/-- Statement action, from `pest/db.rs` `qql::Action`. -/
inductive Action where
  | Select | Update | Delete
deriving DecidableEq

/-- Selector (a projection of a model), from `pest/db.rs` `qql::Selector`. -/
structure Selector where
  name : String
  fields : List String
deriving DecidableEq

/-- Where clause, from `pest/db.rs` `qql::WhereClause`. -/
structure WhereClause where
  expr : Expr
deriving DecidableEq

/-- Statement, from `pest/db.rs` `qql::Statement`. -/
structure Statement where
  action : Action
  quantifier : Quantifier
  selectors : List Selector
  where_clause : Option WhereClause
deriving DecidableEq

/-- Query, from `pest/db.rs` `query::Query`. -/
structure Query where
  name : String
  args : List String
  statement : Statement
deriving DecidableEq

/-! ## Validation errors (src/db/validate/error.rs) -/

/-- Structured validation errors, from `db/validate/error.rs`. -/
inductive ValidationError where
  | DuplicateField (model field : String)
  | UnknownFieldType (model field type_name : String)
  | DuplicateQueryArgument (query argument : String)
  | UnknownQueryVariable (query vname : String)
  | AmbiguousQueryField (query field : String)
  | QueryUnknownModel (query model field : String)
  | QueryUnknownField (query model field : String)
deriving DecidableEq

/-! ## Model validation (src/db/validate/model.rs) -/

/-- `validate_field` from `db/validate/model.rs`: resolve the field type
name in the type store, producing the validated field. -/
def validate_field (ts : TypeStore) (mname : String) (f : PModelField) :
    Except ValidationError VModelField :=
  match TypeStore.get ts f.type_.name with
  | none => .error (.UnknownFieldType mname f.name f.type_.name)
  | some t => .ok ⟨f.name, t, f.type_.optional, f.type_.arg⟩

/-- The field loop of `validate` in `db/validate/model.rs`: walk fields in
declaration order carrying the set of seen names; a repeated name is
`DuplicateField`, then each field is resolved with `validate_field`. -/
def validateFieldsLoop (ts : TypeStore) (mname : String) :
    List PModelField → List String → List VModelField →
    Except ValidationError (List VModelField)
  | [], _, acc => .ok acc
  | f :: rest, seen, acc =>
    if f.name ∈ seen then
      .error (.DuplicateField mname f.name)
    else
      match validate_field ts mname f with
      | .error e => .error e
      | .ok vf => validateFieldsLoop ts mname rest (f.name :: seen) (acc ++ [vf])

/-- `validate` from `db/validate/model.rs`: build the validated model and
insert it into the shared registry keyed by the model name. -/
def validateModel (ctx : DbContext) (m : PModel) :
    Except ValidationError DbContext :=
  match validateFieldsLoop ctx.type_store m.name m.fields [] [] with
  | .error e => .error e
  | .ok fs => .ok ⟨ctx.type_store, regInsert m.name ⟨m.name, fs⟩ ctx.models⟩

/-! ## Query validation (src/db/validate/query.rs) -/

/-- The argument loop of `validate` in `db/validate/query.rs`: returns the
first repeated argument name, if any. -/
def dupArgsLoop : List String → List String → Option String
  | [], _ => none
  | a :: rest, seen => if a ∈ seen then some a else dupArgsLoop rest (a :: seen)

/-- The principal-model computation of `validate` in
`db/validate/query.rs`: present exactly when the statement has one
selector. -/
def principal_model (sels : List Selector) : Option String :=
  match sels with
  | [s] => some s.name
  | _ => none

/-- `QueryContext` from `db/validate/query.rs`. -/
structure QueryContext where
  models : Registry
  queryName : String
  args : List String
  principal_model : Option String

/-- The shared model-resolution tail of `validate_expr`: look the chosen
model up in the registry, then check it has the field. -/
def resolve_field (qc : QueryContext) (m field : String) :
    Except ValidationError Unit :=
  match List.lookup m qc.models with
  | some mdl =>
    if mdl.has_field field then .ok ()
    else .error (.QueryUnknownField qc.queryName mdl.name field)
  | none => .error (.QueryUnknownModel qc.queryName m field)

/-- `QueryContext::validate_expr` from `db/validate/query.rs`.  The
`Field` arm mirrors the source or-pattern `(_, Some(model)) | (Some(model),
_)`: an explicit model qualifier wins, else the principal model, else
`AmbiguousQueryField`. -/
def validate_expr (qc : QueryContext) : Expr → Except ValidationError Unit
  | .Binary l _ r =>
    match validate_expr qc l with
    | .error e => .error e
    | .ok _ => validate_expr qc r
  | .Unary _ r => validate_expr qc r
  | .Number _ => .ok ()
  | .Interp v =>
    if v ∈ qc.args then .ok ()
    else .error (.UnknownQueryVariable qc.queryName v)
  | .Field mopt field =>
    match qc.principal_model, mopt with
    | _, some m => resolve_field qc m field
    | some m, none => resolve_field qc m field
    | none, none => .error (.AmbiguousQueryField qc.queryName field)

/-- `QueryContext::validate_quantifier` from `db/validate/query.rs`: only
an expression-quantifier is walked. -/
def validate_quantifier (qc : QueryContext) :
    Quantifier → Except ValidationError Unit
  | .Expr e => validate_expr qc e
  | _ => .ok ()

/-- `validate` from `db/validate/query.rs`: duplicate-argument check,
principal model, then the quantifier walk.  The statement's
`where_clause` is never visited by the source, and this embedding
deliberately mirrors that. -/
def validateQuery (ctx : DbContext) (q : Query) :
    Except ValidationError Unit :=
  match dupArgsLoop q.args [] with
  | some a => .error (.DuplicateQueryArgument q.name a)
  | none =>
    validate_quantifier
      ⟨ctx.models, q.name, q.args, principal_model q.statement.selectors⟩
      q.statement.quantifier

/-- Modelled from the spec: section 4.4 step 2 additionally requires
walking the where-clause expression when one is present ("Recursively walk
the quantifier's expression (if it is an expression-quantifier) and the
where-clause expression (if present)").  This definition follows those
words; the code under `db/validate/query.rs` omits the where-clause walk. -/
def validateQuerySpec (ctx : DbContext) (q : Query) :
    Except ValidationError Unit :=
  match dupArgsLoop q.args [] with
  | some a => .error (.DuplicateQueryArgument q.name a)
  | none =>
    let qc : QueryContext :=
      ⟨ctx.models, q.name, q.args, principal_model q.statement.selectors⟩
    match validate_quantifier qc q.statement.quantifier with
    | .error e => .error e
    | .ok _ =>
      match q.statement.where_clause with
      | some wc => validate_expr qc wc.expr
      | none => .ok ()

/-- A second reading of the `Field` resolution, written from the spec's
words (section 4.4 step 2c): if the qualifier is present resolve against
it; else if a principal model exists resolve against that; else
`AmbiguousQueryField`; resolution first checks the registry, then the
field. -/
def resolve_field_spec (qc : QueryContext) (mopt : Option String)
    (field : String) : Except ValidationError Unit :=
  match mopt with
  | some m => resolve_field qc m field
  | none =>
    match qc.principal_model with
    | some m => resolve_field qc m field
    | none => .error (.AmbiguousQueryField qc.queryName field)

/-! ## Cursor / parsing primitives

The crate-level `parser` module (the Cursor/Parsing Primitive of spec
section 4.1: `Parser`, `Location`, `Ident`, `ParseError`) is not among the
source files; only its consumers are.  The primitives below are therefore
modelled from the spec: `take` on a literal runs the whitespace hook and
then consumes the literal (consuming nothing on failure), `take` on a
character predicate tests the current character only, `peek` only tests,
`expect` turns a miss into a hard error, and soft parsers run the
whitespace hook on entry (the `atomic` entry point) and fully backtrack on
absence. -/

/-- Modelled from the spec: `ParseError` is a message plus an optional
span (location and length); `new` carries a bare location and
`new_spanned` a location with a length. -/
structure ParseError where
  message : String
  span : Option (Nat × Nat)
deriving DecidableEq

/-- `ParseError::new`. -/
def ParseError.new (message : String) (loc : Nat) : ParseError :=
  ⟨message, some (loc, 0)⟩

/-- `ParseError::new_spanned`. -/
def ParseError.new_spanned (message : String) (loc len : Nat) : ParseError :=
  ⟨message, some (loc, len)⟩

/-- Modelled from the spec: the cursor holds the full source and the
current location (a byte/char offset; the embedded sources are ASCII so
char offsets coincide). -/
structure Cursor where
  src : List Char
  loc : Nat
deriving DecidableEq

/-- The unconsumed input (`Parser::remaining`). -/
def Cursor.rest (c : Cursor) : List Char :=
  c.src.drop c.loc

/-- `Parser::at_end`. -/
def Cursor.at_end (c : Cursor) : Bool :=
  c.src.length ≤ c.loc

/-- `char::is_ascii_whitespace`: space, tab, newline, carriage return,
form feed. -/
def isWsChar (ch : Char) : Bool :=
  ch == ' ' || ch == '\t' || ch == '\n' || ch == '\r' || ch == Char.ofNat 12

/-- The whitespace hook installed by both language front ends: consume
ASCII whitespace. -/
def skipWs (c : Cursor) : Cursor :=
  ⟨c.src, c.loc + (c.rest.takeWhile isWsChar).length⟩

/-- `take` with a character-class predicate: consume one matching
character, never touching whitespace. -/
def takeP (p : Char → Bool) (c : Cursor) : Bool × Cursor :=
  match c.rest with
  | [] => (false, c)
  | ch :: _ => if p ch then (true, ⟨c.src, c.loc + 1⟩) else (false, c)

/-- `take` with a literal token: run the whitespace hook, then consume the
literal; consume nothing on failure. -/
def takeLit (s : String) (c : Cursor) : Bool × Cursor :=
  let c1 := skipWs c
  if c1.rest.take s.length == s.toList then (true, ⟨c.src, c1.loc + s.length⟩)
  else (false, c)

/-- `peek` with a literal token: test only (through the whitespace hook),
consuming nothing. -/
def peekLit (s : String) (c : Cursor) : Bool :=
  (skipWs c).rest.take s.length == s.toList

/-- `expect`: like `take` but a miss is a hard error at the current
location. -/
def expectLit (s : String) (c : Cursor) : Except ParseError Cursor :=
  match takeLit s c with
  | (true, c1) => .ok c1
  | (false, _) => .error (ParseError.new ("expected " ++ s) (skipWs c).loc)

/-- `Parser::take_char`: consume any one character. -/
def take_char (c : Cursor) : Option (Char × Cursor) :=
  match c.rest with
  | [] => none
  | ch :: _ => some (ch, ⟨c.src, c.loc + 1⟩)

/-- Slice of the source between two offsets (`&parser.source[a..b]`). -/
def slice (src : List Char) (a b : Nat) : List Char :=
  (src.drop a).take (b - a)

/-- Source-located identifier as produced by the parsers. -/
structure SIdent where
  value : String
  location : Nat
  length : Nat
deriving DecidableEq

/-! ## QQL parser (src/pest/db.rs) -/

/-- `char::is_ascii_alphabetic` or underscore (QQL identifier start). -/
def isIdentStart (ch : Char) : Bool :=
  ch.isAlpha || ch == '_'

/-- `char::is_ascii_alphanumeric` or underscore (QQL identifier
continuation). -/
def isIdentCont (ch : Char) : Bool :=
  ch.isAlphanum || ch == '_'

/-- `QQLParser::parse_ident`: soft; the leading character must be a letter
or underscore, the rest alphanumeric or underscore; the produced `Ident`
carries the starting location and length. -/
def parse_ident (c0 : Cursor) : Option (SIdent × Cursor) :=
  let c := skipWs c0
  let start := c.loc
  match takeP isIdentStart c with
  | (false, _) => none
  | (true, c1) =>
    let e := c1.loc + (c1.rest.takeWhile isIdentCont).length
    some (⟨String.mk (slice c.src start e), start, e - start⟩, ⟨c.src, e⟩)

/-- Models `str::parse::<u64>` on a lexeme with underscores already
removed: empty input, a non-digit, and overflow are the standard
`ParseIntError` messages. -/
def parseU64Digits (l : List Char) : Except String Nat :=
  if l.isEmpty then .error "cannot parse integer from empty string"
  else if l.all Char.isDigit then
    let n := l.foldl (fun acc ch => acc * 10 + (ch.toNat - 48)) 0
    if n < 2 ^ 64 then .ok n
    else .error "number too large to fit in target type"
  else .error "invalid digit found in string"

/-- `QQLParser::parse_number`: soft.  Faithful to the source, including
that `start` is captured only after the first digit has been consumed, so
the lexeme handed to the integer parser is missing its first digit. -/
def parse_number (c0 : Cursor) : Except ParseError (Option (Nat × Cursor)) :=
  let c := skipWs c0
  match takeP Char.isDigit c with
  | (false, _) => .ok none
  | (true, c1) =>
    let start := c1.loc
    let e := c1.loc + (c1.rest.takeWhile (fun ch => ch.isDigit || ch == '_')).length
    let lex := (slice c.src start e).filter (fun ch => ch != '_')
    match parseU64Digits lex with
    | .error msg =>
      .error (ParseError.new_spanned ("unable to parse number: " ++ msg) start (e - start))
    | .ok n => .ok (some (n, ⟨c.src, e⟩))

/-- The number parser as the spec intends it and as the sibling
implementations (`config/ast.rs` `parse_int`, `simpl/parser.rs`
`parse_number`) write it: `start` captured before the first digit, so the
whole digit run is the lexeme. -/
def parse_number_intended (c0 : Cursor) : Except ParseError (Option (Nat × Cursor)) :=
  let c := skipWs c0
  let start := c.loc
  match takeP Char.isDigit c with
  | (false, _) => .ok none
  | (true, c1) =>
    let e := c1.loc + (c1.rest.takeWhile (fun ch => ch.isDigit || ch == '_')).length
    let lex := (slice c.src start e).filter (fun ch => ch != '_')
    match parseU64Digits lex with
    | .error msg =>
      .error (ParseError.new_spanned ("unable to parse number: " ++ msg) start (e - start))
    | .ok n => .ok (some (n, ⟨c.src, e⟩))

/-- `QQLParser::expect_keyword`. -/
def expect_keyword (kw : String) (c : Cursor) : Except ParseError Cursor :=
  match parse_ident c with
  | none => .error (ParseError.new ("expected keyword \"" ++ kw ++ "\"") c.loc)
  | some (id, c1) =>
    if id.value == kw then .ok c1
    else .error (ParseError.new_spanned ("expected keyword \"" ++ kw ++ "\"") id.location id.length)

/-- `QQLParser::take_keyword`: restores the location on failure. -/
def take_keyword (kw : String) (c : Cursor) : Bool × Cursor :=
  match expect_keyword kw c with
  | .ok c1 => (true, c1)
  | .error _ => (false, c)

/-- ASCII lowering of one character (`char::to_ascii_lowercase`). -/
def asciiLowerChar (ch : Char) : Char :=
  if 'A' ≤ ch && ch ≤ 'Z' then Char.ofNat (ch.toNat + 32) else ch

/-- ASCII-lowered copy of a string, modelling the source's
`eq_ignore_ascii_case` comparisons. -/
def asciiLower (s : String) : String :=
  String.mk (s.toList.map asciiLowerChar)

/-- `QQLParser::take_keyword_insensitive`. -/
def take_keyword_insensitive (kw : String) (c : Cursor) : Bool × Cursor :=
  match parse_ident c with
  | none => (false, c)
  | some (id, c1) =>
    if asciiLower id.value == asciiLower kw then (true, c1) else (false, c)

/-- The sentinel message from `parse_qql_expression_primary` used by
`try_parse_qql_expression` to distinguish absence from malformed input. -/
def PRIMARY_EXPR_ERROR : String := "expected primary expression"

/-- A number-parser argument, letting the expression grammar be
instantiated with the source `parse_number` and with the intended
variant. -/
abbrev NumParser := Cursor → Except ParseError (Option (Nat × Cursor))

/-- `QQLParser::parse_qql_expression_primary`: number, else (possibly
model-qualified) field reference, else `#`-interpolation, else the
sentinel error. -/
def parse_qql_expression_primary (pnum : NumParser) (c : Cursor) :
    Except ParseError (Expr × Cursor) :=
  match pnum c with
  | .error e => .error e
  | .ok (some (n, c1)) => .ok (.Number n, c1)
  | .ok none =>
    match parse_ident c with
    | some (id, c1) =>
      match takeLit "." c1 with
      | (true, c2) =>
        match parse_ident c2 with
        | none => .error (ParseError.new "expected field name after model name" c2.loc)
        | some (fid, c3) => .ok (.Field (some id.value) fid.value, c3)
      | (false, _) => .ok (.Field none id.value, c1)
    | none =>
      match takeLit "#" c with
      | (true, c1) =>
        match parse_ident c1 with
        | none => .error (ParseError.new "expected argument name" c1.loc)
        | some (id, c2) => .ok (.Interp id.value, c2)
      | (false, _) => .error (ParseError.new PRIMARY_EXPR_ERROR c.loc)

/-- `QQLParser::parse_qql_expression_unary`. -/
def parse_qql_expression_unary (pnum : NumParser) (c : Cursor) :
    Except ParseError (Expr × Cursor) :=
  match take_keyword "not" c with
  | (true, c1) =>
    match parse_qql_expression_primary pnum c1 with
    | .error e => .error e
    | .ok (r, c2) => .ok (.Unary .Not r, c2)
  | (false, _) =>
    match takeLit "-" c with
    | (true, c1) =>
      match parse_qql_expression_primary pnum c1 with
      | .error e => .error e
      | .ok (r, c2) => .ok (.Unary .Negative r, c2)
    | (false, _) => parse_qql_expression_primary pnum c

/-- One ordered attempt at a list of literal operator tokens, as in the
source `match () { _ if self.inner.take(..) => .. }` chains. -/
def tryOps : List (String × BinaryOp) → Cursor → Option (BinaryOp × Cursor)
  | [], _ => none
  | (s, op) :: rest, c =>
    match takeLit s c with
    | (true, c1) => some (op, c1)
    | (false, _) => tryOps rest c

/-- A keyword operator attempt (`and` / `or`), case-insensitive. -/
def tryKwOp (kw : String) (op : BinaryOp) (c : Cursor) :
    Option (BinaryOp × Cursor) :=
  match take_keyword_insensitive kw c with
  | (true, c1) => some (op, c1)
  | (false, _) => none

/-- The left-associative operator loop shared by every precedence level:
while an operator token is taken, parse the next operand and fold it into
a `Binary` node.  Each iteration consumes at least the operator token, so
source length bounds the iteration count; the fuel is set above that
bound by the callers. -/
def parse_binop_loop (sub : Cursor → Except ParseError (Expr × Cursor))
    (tryOp : Cursor → Option (BinaryOp × Cursor)) :
    Nat → Expr → Cursor → Except ParseError (Expr × Cursor)
  | 0, _, _ => .error ⟨"internal fuel exhausted", none⟩
  | fuel + 1, e, c =>
    match tryOp c with
    | none => .ok (e, c)
    | some (op, c1) =>
      match sub c1 with
      | .error err => .error err
      | .ok (r, c2) => parse_binop_loop sub tryOp fuel (.Binary e op r) c2

/-- One precedence level: parse the first operand with `sub`, then run the
operator loop. -/
def parse_level (sub : Cursor → Except ParseError (Expr × Cursor))
    (tryOp : Cursor → Option (BinaryOp × Cursor)) (c : Cursor) :
    Except ParseError (Expr × Cursor) :=
  match sub c with
  | .error e => .error e
  | .ok (e0, c1) => parse_binop_loop sub tryOp (c.src.length + 1) e0 c1

/-- `QQLParser::parse_qql_expression_factor`: `*`, `/`, `%`. -/
def parse_qql_expression_factor (pnum : NumParser) : Cursor → Except ParseError (Expr × Cursor) :=
  parse_level (parse_qql_expression_unary pnum)
    (tryOps [("*", .Mul), ("/", .Div), ("%", .Rem)])

/-- `QQLParser::parse_qql_expression_term`: `+`, `-`. -/
def parse_qql_expression_term (pnum : NumParser) : Cursor → Except ParseError (Expr × Cursor) :=
  parse_level (parse_qql_expression_factor pnum)
    (tryOps [("+", .Add), ("-", .Sub)])

/-- `QQLParser::parse_qql_expression_ord`: `>=`, `>`, `<=`, `<` (tried in
that order). -/
def parse_qql_expression_ord (pnum : NumParser) : Cursor → Except ParseError (Expr × Cursor) :=
  parse_level (parse_qql_expression_term pnum)
    (tryOps [(">=", .Ge), (">", .Gt), ("<=", .Le), ("<", .Lt)])

/-- `QQLParser::parse_qql_expression_eq`: `==`, `!=`. -/
def parse_qql_expression_eq (pnum : NumParser) : Cursor → Except ParseError (Expr × Cursor) :=
  parse_level (parse_qql_expression_ord pnum)
    (tryOps [("==", .Eq), ("!=", .Ne)])

/-- `QQLParser::parse_qql_expression_and`. -/
def parse_qql_expression_and (pnum : NumParser) : Cursor → Except ParseError (Expr × Cursor) :=
  parse_level (parse_qql_expression_eq pnum) (tryKwOp "and" .And)

/-- `QQLParser::parse_qql_expression_or`. -/
def parse_qql_expression_or (pnum : NumParser) : Cursor → Except ParseError (Expr × Cursor) :=
  parse_level (parse_qql_expression_and pnum) (tryKwOp "or" .Or)

/-- `QQLParser::try_parse_qql_expression`: the sentinel message is caught
and turned into soft absence; any other failure is hard. -/
def try_parse_qql_expression (pnum : NumParser) (c : Cursor) :
    Except ParseError (Option (Expr × Cursor)) :=
  match parse_qql_expression_or pnum c with
  | .ok r => .ok (some r)
  | .error err =>
    if err.message == PRIMARY_EXPR_ERROR then .ok none else .error err

/-- `QQLParser::parse_qql_expression`. -/
def parse_qql_expression (pnum : NumParser) (c : Cursor) :
    Except ParseError (Expr × Cursor) :=
  match try_parse_qql_expression pnum c with
  | .error e => .error e
  | .ok (some r) => .ok r
  | .ok none => .error (ParseError.new "expected qql expression" c.loc)

/-- The quantifier error message from `parse_qql_quantifier`. -/
def QUANTIFIER_ERROR_MSG : String := "expected 'ONE', 'ALL', a number, or an expression"

/-- `QQLParser::parse_qql_quantifier`: an identifier must be `one` or
`all` (case-insensitive) — any other identifier is a hard error — else a
number, else an expression. -/
def parse_qql_quantifier (c : Cursor) : Except ParseError (Quantifier × Cursor) :=
  match parse_ident c with
  | some (id, c1) =>
    if asciiLower id.value == "one" then .ok (.One, c1)
    else if asciiLower id.value == "all" then .ok (.All, c1)
    else .error (ParseError.new_spanned QUANTIFIER_ERROR_MSG id.location id.length)
  | none =>
    match parse_number c with
    | .error e => .error e
    | .ok (some (n, c1)) => .ok (.Number n, c1)
    | .ok none =>
      match try_parse_qql_expression parse_number c with
      | .error e => .error e
      | .ok (some (e, c1)) => .ok (.Expr e, c1)
      | .ok none => .error (ParseError.new QUANTIFIER_ERROR_MSG c.loc)

/-- `QQLParser::parse_separated_terminated` specialised to identifier
items, as used for query argument lists and selector field lists: stop
before the terminal, accept a missing trailing separator. -/
def parse_sep_term_idents (terminal sep errMsg : String) :
    Nat → Cursor → List String → Except ParseError (List String × Cursor)
  | 0, _, _ => .error ⟨"internal fuel exhausted", none⟩
  | fuel + 1, c, acc =>
    if c.at_end || peekLit terminal c then .ok (acc, c)
    else
      match parse_ident c with
      | none => .error (ParseError.new errMsg (skipWs c).loc)
      | some (id, c1) =>
        match takeLit sep c1 with
        | (true, c2) => parse_sep_term_idents terminal sep errMsg fuel c2 (acc ++ [id.value])
        | (false, _) => .ok (acc ++ [id.value], c1)

/-- `QQLParser::parse_qql_selector`: model name, then a parenthesised
field-name list. -/
def parse_qql_selector (c : Cursor) : Except ParseError (Selector × Cursor) :=
  match parse_ident c with
  | none => .error (ParseError.new "expected model name" c.loc)
  | some (id, c1) =>
    match expectLit "(" c1 with
    | .error e => .error e
    | .ok c2 =>
      match parse_sep_term_idents ")" "," "expected field name" (c2.src.length + 1) c2 [] with
      | .error e => .error e
      | .ok (fields, c3) =>
        match expectLit ")" c3 with
        | .error e => .error e
        | .ok c4 => .ok (⟨id.value, fields⟩, c4)

/-- `QQLParser::parse_qql_action`. -/
def parse_qql_action (c : Cursor) : Except ParseError (Action × Cursor) :=
  match parse_ident c with
  | none => .error (ParseError.new "expected 'select' or 'update' or 'delete'" c.loc)
  | some (id, c1) =>
    if asciiLower id.value == "select" then .ok (.Select, c1)
    else if asciiLower id.value == "update" then .ok (.Update, c1)
    else if asciiLower id.value == "delete" then .ok (.Delete, c1)
    else .error (ParseError.new_spanned "Expected 'select', 'update', or 'delete'" id.location id.length)

/-- The `parse_separated(',', parse_qql_selector)` tail: while a comma is
taken, parse another selector. -/
def parse_selectors_loop :
    Nat → Cursor → List Selector → Except ParseError (List Selector × Cursor)
  | 0, _, _ => .error ⟨"internal fuel exhausted", none⟩
  | fuel + 1, c, acc =>
    match takeLit "," c with
    | (false, _) => .ok (acc, c)
    | (true, c1) =>
      match parse_qql_selector c1 with
      | .error e => .error e
      | .ok (s, c2) => parse_selectors_loop fuel c2 (acc ++ [s])

/-- `QQLParser::parse_qql_where_clause`: soft on the `where` keyword. -/
def parse_qql_where_clause (c : Cursor) :
    Except ParseError (Option WhereClause × Cursor) :=
  match take_keyword_insensitive "where" c with
  | (false, _) => .ok (none, c)
  | (true, c1) =>
    match parse_qql_expression parse_number c1 with
    | .error e => .error e
    | .ok (e, c2) => .ok (some ⟨e⟩, c2)

/-- `QQLParser::parse_qql_statement`. -/
def parse_qql_statement (c : Cursor) : Except ParseError (Statement × Cursor) :=
  match parse_qql_action c with
  | .error e => .error e
  | .ok (action, c1) =>
    match parse_qql_quantifier c1 with
    | .error e => .error e
    | .ok (quantifier, c2) =>
      match parse_qql_selector c2 with
      | .error e => .error e
      | .ok (s0, c3) =>
        match parse_selectors_loop (c3.src.length + 1) c3 [s0] with
        | .error e => .error e
        | .ok (selectors, c4) =>
          match parse_qql_where_clause c4 with
          | .error e => .error e
          | .ok (wc, c5) => .ok (⟨action, quantifier, selectors, wc⟩, c5)

/-- `QQLParser::parse_query`: soft on the `query` keyword. -/
def parse_query (c : Cursor) : Except ParseError (Option (Query × Cursor)) :=
  match take_keyword "query" c with
  | (false, _) => .ok none
  | (true, c1) =>
    match parse_ident c1 with
    | none => .error (ParseError.new "Expected query name" c1.loc)
    | some (name, c2) =>
      match expectLit "(" c2 with
      | .error e => .error e
      | .ok c3 =>
        match parse_sep_term_idents ")" "," "expected identifier" (c3.src.length + 1) c3 [] with
        | .error e => .error e
        | .ok (args, c4) =>
          match expectLit ")" c4 with
          | .error e => .error e
          | .ok c5 =>
            match expectLit "\x7b" c5 with
            | .error e => .error e
            | .ok c6 =>
              match parse_qql_statement c6 with
              | .error e => .error e
              | .ok (statement, c7) =>
                match expectLit "\x7d" c7 with
                | .error e => .error e
                | .ok c8 => .ok (some (⟨name.value, args, statement⟩, c8))

/-- Run a parser over a fresh cursor on the given source text. -/
def cursorOf (s : String) : Cursor :=
  ⟨s.toList, 0⟩

/-- The quantifier parse of a source string (result value only). -/
def parseQuantStr (s : String) : Except ParseError Quantifier :=
  (parse_qql_quantifier (cursorOf s)).map (fun r => r.1)

/-- The expression parse of a source string under a given number parser
(result value only). -/
def parseExprStr (pnum : NumParser) (s : String) : Except ParseError Expr :=
  (parse_qql_expression pnum (cursorOf s)).map (fun r => r.1)

/-- The query parse of a source string (result value only). -/
def parseQueryStr (s : String) : Except ParseError (Option Query) :=
  (parse_query (cursorOf s)).map (fun r => r.map (fun q => q.1))

/-! ## Config string literals (src/config/ast.rs, ConfigParser::parse_string) -/

/-- Hexadecimal digit value. -/
def hexDigitVal (ch : Char) : Option Nat :=
  if ch.isDigit then some (ch.toNat - 48)
  else if 'a' ≤ ch && ch ≤ 'f' then some (ch.toNat - 87)
  else if 'A' ≤ ch && ch ≤ 'F' then some (ch.toNat - 55)
  else none

/-- `u32::from_str_radix(_, 16)` on a four-character slice. -/
def fromStrRadix16 : List Char → Option Nat
  | [] => some 0
  | ch :: rest =>
    match hexDigitVal ch, fromStrRadix16 rest with
    | some d, some n => some (d * 16 ^ rest.length + n)
    | _, _ => none

/-- `char::from_u32` success condition: not a surrogate and at most
`0x10FFFF`. -/
def validCodePoint (code : Nat) : Bool :=
  code < 0xD800 || (0xDFFF < code && code ≤ 0x10FFFF)

/-- The simple escapes of `parse_string`. -/
def simpleEscape : Char → Option Char
  | 'n' => some '\n'
  | 'r' => some '\r'
  | 't' => some '\t'
  | '\\' => some '\\'
  | '\'' => some '\''
  | '"' => some '"'
  | _ => none

/-- The content loop of `ConfigParser::parse_string`, faithful to the
source: on an escape the pending raw run is flushed into `content`, the
escape is decoded and appended, and `previous_content_index` is reset to
the current location.  Two source behaviours are preserved exactly: a
`\u` escape reads its four hex digits by peeking `remaining()` without
consuming them, and on loop exit the final flush runs to the position
after the consumed closing quote. -/
def parse_string_loop (quote : Char) (start : Nat) :
    Nat → Cursor → Nat → Option (List Char) →
    Except ParseError (String × Cursor)
  | 0, _, _, _ => .error ⟨"internal fuel exhausted", none⟩
  | fuel + 1, c, prev, content =>
    if c.at_end || peekLit (String.mk [quote]) c then
      match expectLit (String.mk [quote]) c with
      | .error e => .error e
      | .ok c2 =>
        match content with
        | some cs => .ok (String.mk (cs ++ slice c.src prev c2.loc), c2)
        | none => .ok (String.mk (slice c.src start (c2.loc - 1)), c2)
    else
      match takeP (fun ch => ch != '\\') c with
      | (true, c1) => parse_string_loop quote start fuel c1 prev content
      | (false, _) =>
        let flushed := content.getD [] ++ slice c.src prev c.loc
        let escape_location := c.loc
        let cA : Cursor := ⟨c.src, c.loc + 1⟩
        match take_char cA with
        | none =>
          .error (ParseError.new "unterminated string, expected escape character after '\\'" cA.loc)
        | some (ech, cB) =>
          if ech == 'u' then
            let rem := cB.rest
            if rem.length < 4 then
              .error (ParseError.new_spanned "Expected 4 hex-digits after \\u"
                escape_location (1 + (cB.loc - escape_location)))
            else
              let four := rem.take 4
              match fromStrRadix16 four with
              | none =>
                .error (ParseError.new_spanned
                  ("Expected 4 hex-digits after \\u, instead found \"" ++ String.mk four
                    ++ "\". (invalid digit found in string)")
                  escape_location (4 + (cB.loc - escape_location)))
              | some code =>
                if validCodePoint code then
                  parse_string_loop quote start fuel cB cB.loc
                    (some (flushed ++ [Char.ofNat code]))
                else
                  .error (ParseError.new_spanned
                    ("Invalid unicode escape, " ++ String.mk four ++ " is not a valid character")
                    escape_location (4 + (cB.loc - escape_location)))
          else
            match simpleEscape ech with
            | some decoded =>
              parse_string_loop quote start fuel cB cB.loc (some (flushed ++ [decoded]))
            | none =>
              .error (ParseError.new_spanned "invalid escape character, expected "
                escape_location (cB.loc - escape_location))

/-- `ConfigParser::parse_string`: soft on the opening quote (double or
single). -/
def parse_string (c0 : Cursor) : Except ParseError (Option (String × Cursor)) :=
  match takeLit "\"" c0 with
  | (true, c1) =>
    match parse_string_loop '"' c1.loc (c1.src.length + 2) c1 c1.loc none with
    | .error e => .error e
    | .ok r => .ok (some r)
  | (false, _) =>
    match takeLit "\'" c0 with
    | (true, c1) =>
      match parse_string_loop '\'' c1.loc (c1.src.length + 2) c1 c1.loc none with
      | .error e => .error e
      | .ok r => .ok (some r)
    | (false, _) => .ok none

/-- The string-literal parse of a source string (content only). -/
def parseStringLitStr (s : String) : Except ParseError (Option String) :=
  (parse_string (cursorOf s)).map (fun r => r.map (fun p => p.1))

/-! ## Config values and evaluation (src/config/ast.rs, eval.rs, error.rs) -/

/-- `std::env::VarError`. -/
inductive VarError where
  | NotPresent
  | NotUnicode (lossy : String)
deriving DecidableEq

/-- The `Display` rendering of `std::env::VarError`. -/
def VarError.display : VarError → String
  | .NotPresent => "environment variable not found"
  | .NotUnicode lossy => "environment variable was not valid unicode: " ++ lossy

/-- A model of `std::env::var`: the process environment as a lookup
returning either the value or a `VarError`. -/
abbrev EnvMap := String → Except VarError String

/-- `config::error::EvaluationError`. -/
inductive EvaluationError where
  | ExpectedValue (key type_ : String)
  | UnknownFunction (name : String)
  | ArgumentIssue (function issue : String)
  | ArgumentTypeIssue (function argument type_ : String)
  | EvaluationError (function message : String)
deriving DecidableEq

mutual

/-- `config::ast::Value`. -/
inductive Value where
  | Group : CGroup → Value
  | Function : CFunction → Value
  | String : String → Value
  | Int : Int → Value
  | Path : String → Value

/-- `config::ast::Group`: the entries plus the weak back-reference to the
owning `Context`; `none` models a weak reference whose `Context` has been
destroyed. -/
inductive CGroup where
  | mk : Option CContext → List (String × Value) → CGroup

/-- `config::ast::Function`: a deferred call. -/
inductive CFunction where
  | mk : String → List Value → CFunction

/-- `config::Context`: the registry of named built-in functions. -/
inductive CContext where
  | mk : List (String × Handler) → CContext

/-- A registered built-in (`Box<dyn eval::Function>`), represented as a
tagged enum of built-in kinds as spec section 9 prescribes; the only
source built-in is `Env`, closed over its process environment. -/
inductive Handler where
  | EnvFn : EnvMap → Handler

end

/-- `Value::as_string` (named to keep the `String` in the signature
referring to the string type rather than the `Value` constructor). -/
def valueAsString : Value → Option String
  | .String s => some s
  | _ => none

/-- `EnvFunction::DESCRIPTOR`. -/
def ENV_DESCRIPTOR : String := "Env(key, [default-value])"

/-- `EnvFunction::call` from `config/eval.rs`: 1 or 2 arguments, string
key, environment lookup with optional default on `NotPresent`, and any
other lookup failure surfaced as `EvaluationError` with the underlying
message. -/
def envCallChecked (env : EnvMap) (key : Value) (dflt : Option Value) :
    Except EvaluationError Value :=
  match valueAsString key with
  | none => .error (.ArgumentTypeIssue ENV_DESCRIPTOR "key" "string")
  | some k =>
    match env k, dflt with
    | .ok v, _ => .ok (.String v)
    | .error .NotPresent, some d => .ok d
    | .error e, _ => .error (.EvaluationError ENV_DESCRIPTOR e.display)

/-- See the doc comment above; the argument-shape dispatch of
`EnvFunction::call`. -/
def envCall (env : EnvMap) (args : List Value) : Except EvaluationError Value :=
  match args with
  | [key] => envCallChecked env key none
  | [key, d] => envCallChecked env key (some d)
  | _ =>
    .error (.ArgumentIssue ENV_DESCRIPTOR
      ("Expected 1 or 2 arguments, instead found " ++ toString args.length ++ " arguments"))

/-- Dispatch through the function registry (`handler.call`). -/
def Handler.call (h : Handler) (args : List Value) : Except EvaluationError Value :=
  match h with
  | .EnvFn env => envCall env args

/-- Registry lookup on a `CContext`. -/
def CContext.getFunction (ctx : CContext) (name : String) : Option Handler :=
  match ctx with
  | .mk fns => List.lookup name fns

mutual

/-- The free `eval(function, context)` of `config/ast.rs`: look up the
handler, eagerly evaluate nested `Function` arguments, invoke the
handler, and keep evaluating while the result is itself a `Function`
(the trampoline).  The fuel bounds the recursion depth; the source
recursion always terminates on values the built-ins can return, so any
fuel past the value depth is enough. -/
def evalFn : Nat → CContext → CFunction → Except EvaluationError Value
  | 0, _, _ => .error (.EvaluationError "<model>" "evaluation fuel exhausted")
  | fuel + 1, ctx, f =>
    match f with
    | .mk name fargs =>
      match ctx.getFunction name with
      | none => .error (.UnknownFunction name)
      | some handler =>
        match evalFnArgs fuel ctx fargs with
        | .error e => .error e
        | .ok args =>
          match handler.call args with
          | .error e => .error e
          | .ok (.Function g) => evalFn fuel ctx g
          | .ok v => .ok v
termination_by fuel ctx f => (fuel, 0, 0)

/-- Eager evaluation of a call's arguments: nested `Function` values are
evaluated first, anything else is passed through. -/
def evalFnArgs : Nat → CContext → List Value → Except EvaluationError (List Value)
  | _, _, [] => .ok []
  | fuel, ctx, a :: rest =>
    match a with
    | .Function g =>
      match evalFn fuel ctx g with
      | .error e => .error e
      | .ok v =>
        match evalFnArgs fuel ctx rest with
        | .error e => .error e
        | .ok vs => .ok (v :: vs)
    | v =>
      match evalFnArgs fuel ctx rest with
      | .error e => .error e
      | .ok vs => .ok (v :: vs)
termination_by fuel ctx l => (fuel, 1, l.length)

end

/-- `Group::eval` from `config/ast.rs`.  The result `none` models the
abort of `self.context.upgrade().unwrap()` on a dead weak reference: the
source reaches the unwrap only after the key has been found, and only a
live upgrade proceeds to return a `Result`. -/
def groupEval (fuel : Nat) (g : CGroup) (key : String) :
    Option (Except EvaluationError Value) :=
  match g with
  | .mk ctxref entries =>
    match List.lookup key entries with
    | none => some (.error (.ExpectedValue key "value"))
    | some v =>
      match ctxref with
      | none => none
      | some ctx =>
        match v with
        | .Function f => some (evalFn fuel ctx f)
        | v => some (.ok v)

/-! ## Shared concrete fixtures -/

/-- A registry holding a `User` model with a single `id: UUID` field. -/
def userRegistry : Registry :=
  [("User", ⟨"User", [⟨"id", .UUID, false, none⟩]⟩)]

/-- A validation context with the default type store and the `User`
model registered. -/
def dbCtxWithUser : DbContext := ⟨defaultTypeStore, userRegistry⟩

/-- The surface text of the spec's unknown-interpolation example query. -/
def exampleQueryC1src : String :=
  "query Q(a) { select one User(id) where id == #b }"

/-- The parsed form of `exampleQueryC1src`. -/
def exampleQueryC1 : Query :=
  ⟨"Q", ["a"],
    ⟨.Select, .One, [⟨"User", ["id"]⟩],
      some ⟨.Binary (.Field none "id") .Eq (.Interp "b")⟩⟩⟩

/-- An environment with `FOO` bound to `bar` and nothing else. -/
def envWithFOO : EnvMap :=
  fun k => if k == "FOO" then .ok "bar" else .error .NotPresent

/-- An empty environment: every lookup is `NotPresent`. -/
def envEmpty : EnvMap :=
  fun _ => .error .NotPresent

/-- A config function registry holding the one source built-in, `Env`
(`eval::build_context`). -/
def ctxEnvOnly : CContext := .mk [("Env", .EnvFn envEmpty)]

/-! ## Supporting lemmas -/

/-- Running the model-field loop over a clean prefix (no duplicate names
among the prefix, none already seen, all types known) reaches the suffix,
with the seen set grown by exactly the prefix names. -/
theorem validateFieldsLoop_clean_prefix (ts : TypeStore) (mname : String) :
    ∀ (fs1 rest : List PModelField) (seen : List String) (acc : List VModelField),
    (∀ g ∈ fs1, g.name ∉ seen ∧ (TypeStore.get ts g.type_.name).isSome = true) →
    (fs1.map PModelField.name).Nodup →
    ∃ seen2 acc2,
      validateFieldsLoop ts mname (fs1 ++ rest) seen acc
        = validateFieldsLoop ts mname rest seen2 acc2
      ∧ ∀ x, x ∈ seen2 ↔ x ∈ fs1.map PModelField.name ∨ x ∈ seen := by
  intro fs1
  induction fs1 with
  | nil =>
    intro rest seen acc _ _
    exact ⟨seen, acc, rfl, fun x => by simp⟩
  | cons f fs1 ih =>
    intro rest seen acc hclean hnodup
    obtain ⟨hf, hty⟩ := hclean f (by simp)
    obtain ⟨t, ht⟩ := Option.isSome_iff_exists.mp hty
    have hstep :
        validateFieldsLoop ts mname ((f :: fs1) ++ rest) seen acc
          = validateFieldsLoop ts mname (fs1 ++ rest) (f.name :: seen)
              (acc ++ [⟨f.name, t, f.type_.optional, f.type_.arg⟩]) := by
      simp only [List.cons_append, validateFieldsLoop, validate_field, ht]
      rw [if_neg hf]
      rfl
    have hnodup1 : (fs1.map PModelField.name).Nodup :=
      (List.nodup_cons.mp hnodup).2
    have hnotin : f.name ∉ fs1.map PModelField.name :=
      (List.nodup_cons.mp hnodup).1
    have hclean1 : ∀ g ∈ fs1, g.name ∉ f.name :: seen ∧
        (TypeStore.get ts g.type_.name).isSome = true := by
      intro g hg
      obtain ⟨hg1, hg2⟩ := hclean g (by simp [hg])
      refine ⟨?_, hg2⟩
      intro hmem
      rcases List.mem_cons.mp hmem with heq | hmem2
      · exact hnotin (heq ▸ List.mem_map_of_mem PModelField.name hg)
      · exact hg1 hmem2
    obtain ⟨seen2, acc2, heq, hiff⟩ :=
      ih rest (f.name :: seen) (acc ++ [⟨f.name, t, f.type_.optional, f.type_.arg⟩]) hclean1 hnodup1
    refine ⟨seen2, acc2, hstep.trans heq, fun x => ?_⟩
    rw [hiff x]
    simp only [List.map_cons, List.mem_cons]
    tauto

/-! ## Claims -/

/-- Claim C1 (code bug): the spec requires query validation to walk both
the quantifier expression and the where-clause expression, so the example
query must yield `UnknownQueryVariable` for `#b`; the source `validate`
never visits `statement.where_clause`, and the example query — parsed by
the embedded parser into exactly the expected AST — validates to `Ok(())`,
while the spec-faithful walk yields the required error. -/
theorem c1_where_clause_not_validated :
    parseQueryStr exampleQueryC1src = .ok (some exampleQueryC1)
    ∧ validateQuery dbCtxWithUser exampleQueryC1 = .ok ()
    ∧ validateQuerySpec dbCtxWithUser exampleQueryC1
        = .error (.UnknownQueryVariable "Q" "b") := by
  refine ⟨by decide, by decide, by decide⟩

/-- Claim C2: the principal model exists exactly for a single-selector
statement and is that selector's model; a walked `Field` node resolves
against the explicit qualifier when present, else the principal model,
else yields `AmbiguousQueryField` — as captured by the spec-side reading
`resolve_field_spec` — and resolution yields `QueryUnknownModel` for an
unregistered model and otherwise `QueryUnknownField` for a missing
field. -/
theorem c2_field_resolution :
    (∀ sels : List Selector, (principal_model sels).isSome = true ↔ sels.length = 1)
    ∧ (∀ s : Selector, principal_model [s] = some s.name)
    ∧ (∀ (qc : QueryContext) (mopt : Option String) (field : String),
        validate_expr qc (.Field mopt field) = resolve_field_spec qc mopt field)
    ∧ (∀ (qc : QueryContext) (m field : String),
        List.lookup m qc.models = none →
        resolve_field qc m field = .error (.QueryUnknownModel qc.queryName m field))
    ∧ (∀ (qc : QueryContext) (m field : String) (mdl : VModel),
        List.lookup m qc.models = some mdl →
        mdl.has_field field = false →
        resolve_field qc m field = .error (.QueryUnknownField qc.queryName mdl.name field)) := by
  refine ⟨?_, fun s => rfl, ?_, ?_, ?_⟩
  · intro sels
    match sels with
    | [] => simp [principal_model]
    | [s] => simp [principal_model]
    | a :: b :: t => simp [principal_model]
  · intro qc mopt field
    cases mopt with
    | some m =>
      cases h : qc.principal_model with
      | some p => simp [validate_expr, resolve_field_spec, h]
      | none => simp [validate_expr, resolve_field_spec, h]
    | none =>
      cases h : qc.principal_model with
      | some p => simp [validate_expr, resolve_field_spec, h]
      | none => simp [validate_expr, resolve_field_spec, h]
  · intro qc m field h
    simp [resolve_field, h]
  · intro qc m field mdl h hf
    simp [resolve_field, h, hf]

/-- Witness for C2 at concrete inputs: the single-selector principal
model, the `Field`-node equivalence, and the two resolution errors against
the `User` registry. -/
theorem c2_witness :
    ((principal_model [⟨"User", ["id"]⟩]).isSome = true ↔
      ([⟨"User", ["id"]⟩] : List Selector).length = 1)
    ∧ validate_expr ⟨userRegistry, "Q", ["a"], some "User"⟩ (.Field none "nope")
        = resolve_field_spec ⟨userRegistry, "Q", ["a"], some "User"⟩ none "nope"
    ∧ resolve_field ⟨userRegistry, "Q", ["a"], some "User"⟩ "Ghost" "f"
        = .error (.QueryUnknownModel "Q" "Ghost" "f")
    ∧ resolve_field ⟨userRegistry, "Q", ["a"], some "User"⟩ "User" "nope"
        = .error (.QueryUnknownField "Q" "User" "nope") :=
  ⟨c2_field_resolution.1 [⟨"User", ["id"]⟩],
   c2_field_resolution.2.2.1 ⟨userRegistry, "Q", ["a"], some "User"⟩ none "nope",
   c2_field_resolution.2.2.2.1 ⟨userRegistry, "Q", ["a"], some "User"⟩ "Ghost" "f" rfl,
   c2_field_resolution.2.2.2.2 ⟨userRegistry, "Q", ["a"], some "User"⟩ "User" "nope"
     ⟨"User", [⟨"id", .UUID, false, none⟩]⟩ rfl rfl⟩

/-- Counterexample for C3: `count` is a well-formed QQL expression and is
none of `one`, `all`, or a bare number, yet the quantifier parser rejects
it with a hard error instead of producing an expression-quantifier; and
the bare number `5` does not parse as `Quantifier::Number` but fails
(`parse_number` hands an empty lexeme to the integer parser). -/
theorem c3_counterexample :
    parseExprStr parse_number "count" = .ok (.Field none "count")
    ∧ parseQuantStr "count" = .error (ParseError.new_spanned QUANTIFIER_ERROR_MSG 0 5)
    ∧ parseQuantStr "5"
        = .error (ParseError.new_spanned
            "unable to parse number: cannot parse integer from empty string" 1 0) := by
  refine ⟨by decide, by decide, by decide⟩

/-- Claim C3 as amended: the quantifier alternatives are tried in the
order identifier, number, expression; an identifier is accepted only as
case-insensitive `one`/`all` and any other identifier is a hard error, so
an expression-quantifier is reachable only for expressions that do not
start with an identifier (such as `#arg` or `-x`); a number at the
quantifier position is consumed by the number alternative, never by the
expression alternative — though `parse_number` drops the first digit, so
`42` yields `Number 2` and the single-digit `5` is a parse error (the
defect recorded at C5). -/
theorem c3_amended :
    parseQuantStr "one" = .ok .One
    ∧ parseQuantStr "ALL" = .ok .All
    ∧ parseQuantStr "42" = .ok (.Number 2)
    ∧ parseQuantStr "#b" = .ok (.Expr (.Interp "b"))
    ∧ parseQuantStr "-x" = .ok (.Expr (.Unary .Negative (.Field none "x")))
    ∧ parseQuantStr "count" = .error (ParseError.new_spanned QUANTIFIER_ERROR_MSG 0 5) := by
  refine ⟨by decide, by decide, by decide, by decide, by decide, by decide⟩

/-- Claim C4 (code bug): the spec requires `"a\nb\u0041"` to parse to the
four characters `a`, newline, `b`, `A`, with `\uXXXX` consuming its four
hex digits; the source `parse_string` peeks the digits without consuming
them (they are re-scanned as ordinary characters) and, once any escape
has occurred, its final flush runs past the consumed closing quote, so
the literal actually parses to `a`, newline, `b`, `A`, `0`, `0`, `4`,
`1`, `"`.  The malformed-escape half of the claim does hold: `\u12`
followed by the closing quote is a hard error with the offending span. -/
theorem c4_string_escapes :
    parseStringLitStr "\"a\\nb\\u0041\"" = .ok (some "a\nbA0041\"")
    ∧ parseStringLitStr "\"\\u12\""
        = .error (ParseError.new_spanned "Expected 4 hex-digits after \\u" 1 3) := by
  refine ⟨by decide, by decide⟩

/-- Claim C5 (code bug): with the source `parse_number` (which captures
its lexeme start only after consuming the first digit) the input
`1 + 2 * 3` is a hard parse error — the number lexeme for `1` is empty —
rather than any expression tree; with the number parser as the spec and
the sibling implementations intend it, the same input parses to exactly
`Add(Number 1, Mul(Number 2, Number 3))`, multiplicative operators binding
tighter than additive ones. -/
theorem c5_precedence :
    parseExprStr parse_number "1 + 2 * 3"
      = .error (ParseError.new_spanned
          "unable to parse number: cannot parse integer from empty string" 1 0)
    ∧ parseExprStr parse_number_intended "1 + 2 * 3"
      = .ok (.Binary (.Number 1) .Add (.Binary (.Number 2) .Mul (.Number 3))) := by
  refine ⟨by decide, by decide⟩

/-- Claim C6: the model pass walks fields in declaration order and fails
fast — the spec's example model yields `DuplicateField` for `User`/`id`;
in general, past any clean prefix (distinct names, known types), a field
repeating an earlier name yields `DuplicateField` with the model and field
names, and a fresh field whose type is absent from the type store yields
`UnknownFieldType` with the model, field and type names. -/
theorem c6_model_pass :
    validateModel ⟨defaultTypeStore, []⟩
        ⟨"User", [⟨"id", ⟨"UUID", none, false⟩⟩, ⟨"id", ⟨"String", none, false⟩⟩]⟩
      = .error (.DuplicateField "User" "id")
    ∧ (∀ (ctx : DbContext) (m : PModel) (fs1 fs2 : List PModelField) (f : PModelField),
        m.fields = fs1 ++ f :: fs2 →
        (fs1.map PModelField.name).Nodup →
        (∀ g ∈ fs1, (TypeStore.get ctx.type_store g.type_.name).isSome = true) →
        f.name ∈ fs1.map PModelField.name →
        validateModel ctx m = .error (.DuplicateField m.name f.name))
    ∧ (∀ (ctx : DbContext) (m : PModel) (fs1 fs2 : List PModelField) (f : PModelField),
        m.fields = fs1 ++ f :: fs2 →
        (fs1.map PModelField.name).Nodup →
        (∀ g ∈ fs1, (TypeStore.get ctx.type_store g.type_.name).isSome = true) →
        f.name ∉ fs1.map PModelField.name →
        TypeStore.get ctx.type_store f.type_.name = none →
        validateModel ctx m = .error (.UnknownFieldType m.name f.name f.type_.name)) := by
  refine ⟨by decide, ?_, ?_⟩
  · intro ctx m fs1 fs2 f hfields hnodup htypes hdup
    obtain ⟨seen2, acc2, heq, hiff⟩ :=
      validateFieldsLoop_clean_prefix ctx.type_store m.name fs1 (f :: fs2) [] []
        (fun g hg => ⟨by simp, htypes g hg⟩) hnodup
    have hmem : f.name ∈ seen2 := (hiff f.name).mpr (Or.inl hdup)
    simp only [validateModel, hfields, heq, validateFieldsLoop, if_pos hmem]
  · intro ctx m fs1 fs2 f hfields hnodup htypes hfresh hty
    obtain ⟨seen2, acc2, heq, hiff⟩ :=
      validateFieldsLoop_clean_prefix ctx.type_store m.name fs1 (f :: fs2) [] []
        (fun g hg => ⟨by simp, htypes g hg⟩) hnodup
    have hmem : f.name ∉ seen2 := by
      intro h
      rcases (hiff f.name).mp h with h1 | h1
      · exact hfresh h1
      · simp at h1
    simp only [validateModel, hfields, heq, validateFieldsLoop, if_neg hmem,
      validate_field, hty]

/-- Witness for C6 at concrete inputs: the duplicate `id` in
`User { id: UUID, id: String }` and the unknown type in
`User { id: Bogus }`. -/
theorem c6_witness :
    validateModel ⟨defaultTypeStore, []⟩
        ⟨"User", [⟨"id", ⟨"UUID", none, false⟩⟩, ⟨"id", ⟨"String", none, false⟩⟩]⟩
      = .error (.DuplicateField "User" "id")
    ∧ validateModel ⟨defaultTypeStore, []⟩ ⟨"User", [⟨"id", ⟨"Bogus", none, false⟩⟩]⟩
      = .error (.UnknownFieldType "User" "id" "Bogus") :=
  ⟨c6_model_pass.2.1 ⟨defaultTypeStore, []⟩
      ⟨"User", [⟨"id", ⟨"UUID", none, false⟩⟩, ⟨"id", ⟨"String", none, false⟩⟩]⟩
      [⟨"id", ⟨"UUID", none, false⟩⟩] [] ⟨"id", ⟨"String", none, false⟩⟩
      rfl (by decide) (by decide) (by decide),
   c6_model_pass.2.2 ⟨defaultTypeStore, []⟩
      ⟨"User", [⟨"id", ⟨"Bogus", none, false⟩⟩]⟩
      [] [] ⟨"id", ⟨"Bogus", none, false⟩⟩
      rfl (by decide) (by decide) (by decide) rfl⟩

/-- Claim C7: the built-in `Env` rejects any argument count other than 1
or 2 with `ArgumentIssue` and a non-string key with `ArgumentTypeIssue`;
a successful environment lookup yields the string, a `NotPresent` lookup
with a default yields that default value, and a `NotPresent` lookup
without a default yields `EvaluationError` carrying the underlying
message. -/
theorem c7_env_function :
    (∀ (env : EnvMap) (args : List Value), args.length ≠ 1 → args.length ≠ 2 →
        envCall env args
          = .error (.ArgumentIssue ENV_DESCRIPTOR
              ("Expected 1 or 2 arguments, instead found "
                ++ toString args.length ++ " arguments")))
    ∧ (∀ (env : EnvMap) (key : Value), valueAsString key = none →
        envCall env [key] = .error (.ArgumentTypeIssue ENV_DESCRIPTOR "key" "string"))
    ∧ (∀ (env : EnvMap) (key d : Value), valueAsString key = none →
        envCall env [key, d] = .error (.ArgumentTypeIssue ENV_DESCRIPTOR "key" "string"))
    ∧ (∀ (env : EnvMap) (k v : String), env k = .ok v →
        envCall env [.String k] = .ok (.String v))
    ∧ (∀ (env : EnvMap) (k : String) (d : Value), env k = .error .NotPresent →
        envCall env [.String k, d] = .ok d)
    ∧ (∀ (env : EnvMap) (k : String), env k = .error .NotPresent →
        envCall env [.String k]
          = .error (.EvaluationError ENV_DESCRIPTOR "environment variable not found")) := by
  refine ⟨?_, ?_, ?_, ?_, ?_, ?_⟩
  · intro env args h1 h2
    match args with
    | [] => rfl
    | [a] => exact absurd rfl h1
    | [a, b] => exact absurd rfl h2
    | a :: b :: c :: t => rfl
  · intro env key h
    simp [envCall, envCallChecked, h]
  · intro env key d h
    simp [envCall, envCallChecked, h]
  · intro env k v h
    simp [envCall, envCallChecked, valueAsString, h]
  · intro env k d h
    simp [envCall, envCallChecked, valueAsString, h]
  · intro env k h
    simp [envCall, envCallChecked, valueAsString, h, VarError.display]

/-- Witness for C7 at concrete inputs: zero arguments, a non-string key,
`FOO=bar` bound, `FOO` unset with a default, and `FOO` unset without a
default. -/
theorem c7_witness :
    envCall envWithFOO []
      = .error (.ArgumentIssue ENV_DESCRIPTOR
          "Expected 1 or 2 arguments, instead found 0 arguments")
    ∧ envCall envWithFOO [.Int 3]
      = .error (.ArgumentTypeIssue ENV_DESCRIPTOR "key" "string")
    ∧ envCall envWithFOO [.String "FOO"] = .ok (.String "bar")
    ∧ envCall envEmpty [.String "FOO", .String "default"] = .ok (.String "default")
    ∧ envCall envEmpty [.String "FOO"]
      = .error (.EvaluationError ENV_DESCRIPTOR "environment variable not found") :=
  ⟨c7_env_function.1 envWithFOO [] (by decide) (by decide),
   c7_env_function.2.1 envWithFOO (.Int 3) rfl,
   c7_env_function.2.2.2.1 envWithFOO "FOO" "bar" rfl,
   c7_env_function.2.2.2.2.1 envEmpty "FOO" (.String "default") rfl,
   c7_env_function.2.2.2.2.2 envEmpty "FOO" rfl⟩

/-- Claim C8: a successful model validation builds the validated model
(per field the name, resolved type, optional flag and numeric argument)
and inserts it keyed by the model name, overwriting any prior entry
without error: validating a second model of the same name succeeds
whenever its own fields validate, and the registry then maps the name to
the most recently validated model. -/
theorem c8_registry_overwrite :
    (∀ (ts : TypeStore) (mname : String) (f : PModelField) (t : DataType),
        TypeStore.get ts f.type_.name = some t →
        validate_field ts mname f = .ok ⟨f.name, t, f.type_.optional, f.type_.arg⟩)
    ∧ (∀ (ctx ctx1 : DbContext) (m1 m2 : PModel) (fs2 : List VModelField),
        m1.name = m2.name →
        validateModel ctx m1 = .ok ctx1 →
        validateFieldsLoop ctx1.type_store m2.name m2.fields [] [] = .ok fs2 →
        validateModel ctx1 m2
            = .ok ⟨ctx1.type_store, regInsert m2.name ⟨m2.name, fs2⟩ ctx1.models⟩
          ∧ List.lookup m1.name (regInsert m2.name ⟨m2.name, fs2⟩ ctx1.models)
            = some ⟨m2.name, fs2⟩) := by
  refine ⟨?_, ?_⟩
  · intro ts mname f t h
    simp [validate_field, h]
  · intro ctx ctx1 m1 m2 fs2 hname _ hloop
    refine ⟨by simp [validateModel, hloop], ?_⟩
    rw [hname]
    simp [regInsert, List.lookup]

/-- Witness for C8 at concrete inputs: two models both named `N`; after
the second validation the registry maps `N` to the second model's
validated form, with no error raised. -/
theorem c8_witness :
    validateModel ⟨defaultTypeStore, [("N", ⟨"N", [⟨"a", .UUID, false, none⟩]⟩)]⟩
        ⟨"N", [⟨"b", ⟨"String", some 32, true⟩⟩]⟩
      = .ok ⟨defaultTypeStore,
          regInsert "N" ⟨"N", [⟨"b", .String, true, some 32⟩]⟩
            [("N", ⟨"N", [⟨"a", .UUID, false, none⟩]⟩)]⟩
    ∧ List.lookup "N"
        (regInsert "N" ⟨"N", [⟨"b", .String, true, some 32⟩]⟩
          [("N", ⟨"N", [⟨"a", .UUID, false, none⟩]⟩)])
      = some ⟨"N", [⟨"b", .String, true, some 32⟩]⟩ :=
  c8_registry_overwrite.2 ⟨defaultTypeStore, []⟩
    ⟨defaultTypeStore, [("N", ⟨"N", [⟨"a", .UUID, false, none⟩]⟩)]⟩
    ⟨"N", [⟨"a", ⟨"UUID", none, false⟩⟩]⟩
    ⟨"N", [⟨"b", ⟨"String", some 32, true⟩⟩]⟩
    [⟨"b", .String, true, some 32⟩]
    rfl (by decide) (by decide)

/-- Claim C9: `Group::eval` under a live owning `Context` always reaches a
`Result` (the weak upgrade succeeds; the dead-context branch is
unreachable), while a destroyed `Context` — reached whenever the key is
present so the upgrade is attempted — is the modelled abort (`unwrap` of
a dead weak reference), not a recoverable `Result`. -/
theorem c9_group_eval_contract :
    (∀ (fuel : Nat) (ctx : CContext) (entries : List (String × Value)) (key : String),
        (groupEval fuel (.mk (some ctx) entries) key).isSome = true)
    ∧ (∀ (fuel : Nat) (entries : List (String × Value)) (key : String) (v : Value),
        List.lookup key entries = some v →
        groupEval fuel (.mk none entries) key = none) := by
  refine ⟨?_, ?_⟩
  · intro fuel ctx entries key
    simp only [groupEval]
    cases h : List.lookup key entries with
    | none => rfl
    | some v => cases v <;> rfl
  · intro fuel entries key v h
    simp [groupEval, h]

/-- Witness for C9 at concrete inputs: with the `Env`-only registry alive
the evaluation returns a `Result`; with the context destroyed and the key
present it is the modelled abort. -/
theorem c9_witness :
    (groupEval 1 (.mk (some ctxEnvOnly) [("k", .Int 3)]) "k").isSome = true
    ∧ groupEval 1 (.mk none [("k", .Int 3)]) "k" = none :=
  ⟨c9_group_eval_contract.1 1 ctxEnvOnly [("k", .Int 3)] "k",
   c9_group_eval_contract.2 1 [("k", .Int 3)] "k" (.Int 3) rfl⟩

/-- Claim C10: query validation never inspects selector field projections
(nor resolves selector model names against the registry): any query whose
argument list is duplicate-free and whose quantifier walk succeeds
validates to `Ok(())`, whatever its selectors and where-clause contain. -/
theorem c10_selector_fields_unchecked :
    ∀ (ctx : DbContext) (q : Query),
      dupArgsLoop q.args [] = none →
      validate_quantifier
          ⟨ctx.models, q.name, q.args, principal_model q.statement.selectors⟩
          q.statement.quantifier = .ok () →
      validateQuery ctx q = .ok () := by
  intro ctx q h1 h2
  simp [validateQuery, h1, h2]

/-- Witness for C10 at a concrete input: a selector naming the
unregistered model `Ghost` and projecting the undeclared field `bogus`
still validates against the `User`-only registry. -/
theorem c10_witness :
    validateQuery dbCtxWithUser
      ⟨"Q", ["a"], ⟨.Select, .One, [⟨"Ghost", ["bogus"]⟩], none⟩⟩ = .ok () :=
  c10_selector_fields_unchecked dbCtxWithUser
    ⟨"Q", ["a"], ⟨.Select, .One, [⟨"Ghost", ["bogus"]⟩], none⟩⟩ rfl rfl

end Aio
